import Mathlib

/-!
Verification of the EC2 multi-OU idle-shutdown Lambda
(`src/lambda/src/ec2_shutdown.py`), shallowly embedded in Lean 4.

Times are modelled in whole seconds (`Int`), CPU averages as exact
rationals (`ℚ`).  Python's stable `list.sort(key=Timestamp)` is modelled
by Mathlib's `List.insertionSort` on the timestamp order, which is also
stable.  AWS API calls are modelled as explicit function parameters; the
evaluation returns, next to its verdict, a flag recording whether the
telemetry query was issued.
-/

namespace Ec2Shutdown

/-- Configuration constant `CPU_THRESHOLD = 1.0` (percent). -/
def CPU_THRESHOLD : ℚ := 1

/-- Configuration constant `IDLE_DURATION_HOURS = 3`. -/
def IDLE_DURATION_HOURS : Nat := 3

/-- `EXCLUDED_INSTANCE_TYPES = ['p', 'g']`. -/
def EXCLUDED_INSTANCE_TYPES : List String := ["p", "g"]

/-- Python `str.lower()`, character-wise ASCII case folding. -/
def pyLower (s : String) : String := ⟨s.data.map Char.toLower⟩

/-- Python `str.startswith(p)`. -/
def pyStartsWith (s p : String) : Bool := s.data.take p.data.length == p.data

/-- One EC2 tag (`{'Key': ..., 'Value': ...}`). -/
structure Tag where
  key : String
  value : String
deriving DecidableEq, Repr

/-- The fields of an EC2 instance record that the script reads. -/
structure Instance where
  instanceId : String
  instanceType : String
  tags : List Tag
deriving DecidableEq, Repr

/-- Python `{tag['Key']: tag['Value'] for tag in tags}.get(k, dflt)`:
a dict comprehension keeps the last binding of a duplicated key. -/
def pyTagGet (tags : List Tag) (k dflt : String) : String :=
  match (tags.filter (fun t => t.key = k)).getLast? with
  | some t => t.value
  | none => dflt

/-- The two skip reasons returned by `should_skip_instance`
(the excluded-family message and the opt-out-tag message). -/
inductive SkipReason where
  | excludedType
  | optOutTag
deriving DecidableEq, Repr

/-- `should_skip_instance`: excluded family first (case-insensitive
startswith over `EXCLUDED_INSTANCE_TYPES`), then the `Shutdown=no`
opt-out tag (value lower-cased). -/
def should_skip_instance (inst : Instance) : Option SkipReason :=
  match EXCLUDED_INSTANCE_TYPES.find?
      (fun ex => pyStartsWith (pyLower inst.instanceType) ex) with
  | some _ => some .excludedType
  | none =>
    if pyLower (pyTagGet inst.tags "Shutdown" "") = "no" then
      some .optOutTag
    else
      none

/-- One CloudWatch datapoint: timestamp (seconds) and `Average` (percent). -/
structure Datapoint where
  timestamp : Int
  average : ℚ
deriving DecidableEq, Repr

/-- Verdicts of `is_instance_idle`; each non-`idle` constructor is one of
the function's early `return False` points (the Python function returns
a bool, `idle` mapping to `True`). -/
inductive IdleVerdict where
  | noLaunchTime
  | tooYoung
  | noData
  | insufficientCount
  | tooManyGaps
  | active
  | idle
deriving DecidableEq, Repr

/-- `expected_datapoints = int(IDLE_DURATION_HOURS * 12)`. -/
def expected_datapoints : Nat := IDLE_DURATION_HOURS * 12

/-- `min_required_datapoints = int(expected_datapoints * 0.9)`.
`int` truncates toward zero; the value is positive, so the result is
`floor(expected_datapoints * 9/10)`, i.e. truncating Nat division by 10
(exact arithmetic; at the configured `expected_datapoints = 36` the float
product `32.400...` and the exact product `32.4` truncate alike, to 32). -/
def min_required_datapoints : Nat := expected_datapoints * 9 / 10

/-- `required_runtime_hours = IDLE_DURATION_HOURS + 0.5`, in seconds. -/
def requiredRuntimeSeconds : Int := IDLE_DURATION_HOURS * 3600 + 1800

/-- Timestamp order used by `datapoints.sort(key=lambda x: x['Timestamp'])`. -/
def tsLE (a b : Datapoint) : Prop := a.timestamp ≤ b.timestamp

instance : DecidableRel tsLE := fun a b => Int.decLe a.timestamp b.timestamp

instance : IsTotal Datapoint tsLE := ⟨fun a b => Int.le_total a.timestamp b.timestamp⟩

instance : IsTrans Datapoint tsLE := ⟨fun _ _ _ h h' => le_trans h h'⟩

/-- The sort at line 274.  Python's Timsort is stable; `insertionSort`
is stable too, and a stable sort by a key is uniquely determined by the
input order, so the two agree on every input. -/
def sortSamples (datapoints : List Datapoint) : List Datapoint :=
  datapoints.insertionSort tsLE

/-- Consecutive timestamp differences of a (sorted) datapoint list,
`(datapoints[i]['Timestamp'] - datapoints[i-1]['Timestamp'])` in seconds. -/
def consecDiffs (l : List Datapoint) : List Int :=
  (l.zip l.tail).map (fun p => p.2.timestamp - p.1.timestamp)

/-- `time_gaps`: the consecutive differences strictly above 360 seconds,
each recorded at its FULL duration (lines 286-290). -/
def timeGaps (l : List Datapoint) : List Int :=
  (consecDiffs l).filter (fun d => 360 < d)

/-- Lines 292-297: fail when gaps were recorded and their total exceeds
600 seconds. -/
def gapCheckFails (l : List Datapoint) : Bool :=
  !(timeGaps l).isEmpty && decide (600 < (timeGaps l).sum)

/-- Lines 299-308: trim to the most recent `expected_datapoints` samples
and classify: idle iff the percentage of samples with
`Average <= CPU_THRESHOLD` equals 100. -/
def classifyDatapoints (recent : List Datapoint) : IdleVerdict :=
  let idleCount := (recent.filter (fun dp => dp.average ≤ CPU_THRESHOLD)).length
  let idlePercentage : ℚ := (idleCount : ℚ) / (recent.length : ℚ) * 100
  if idlePercentage = 100 then .idle else .active

/-- Line 300: `datapoints[-expected_datapoints:] if len(datapoints) >=
expected_datapoints else datapoints`, applied to the sorted list. -/
def recentOf (datapoints : List Datapoint) : List Datapoint :=
  let sorted := sortSamples datapoints
  if expected_datapoints ≤ sorted.length then
    sorted.drop (sorted.length - expected_datapoints)
  else sorted

/-- Lines 267-308 of `is_instance_idle`: everything after the CloudWatch
response is received. -/
def evaluateSamples (datapoints : List Datapoint) : IdleVerdict :=
  if datapoints.isEmpty then .noData
  else if datapoints.length < min_required_datapoints then .insufficientCount
  else if gapCheckFails (sortSamples datapoints) then .tooManyGaps
  else classifyDatapoints (recentOf datapoints)

/-- Lines 239-250: metric window.  `end = now`; start is the launch time
when the instance launched within the last `IDLE_DURATION_HOURS` hours,
otherwise `now - IDLE_DURATION_HOURS`. -/
def metricsWindow (launchTime now : Int) : Int × Int :=
  let endTime := now
  let standardStart := now - (IDLE_DURATION_HOURS : Int) * 3600
  if standardStart < launchTime then (launchTime, endTime)
  else (standardStart, endTime)

/-- `is_instance_idle`, with the AWS calls made explicit: `launchTime` is
what `describe_instances` yields (None when absent), `telemetry` models
`cloudwatch.get_metric_statistics` as a function of the window.  The
second component records whether the telemetry query was issued. -/
def is_instance_idle (launchTime : Option Int) (now : Int)
    (telemetry : Int → Int → List Datapoint) : IdleVerdict × Bool :=
  match launchTime with
  | none => (.noLaunchTime, false)
  | some lt =>
    if now - lt < requiredRuntimeSeconds then (.tooYoung, false)
    else
      let w := metricsWindow lt now
      (evaluateSamples (telemetry w.1 w.2), true)

/-- The per-instance record built by `shutdown_instance`.  `instance_name`
is only present on a real (non-dry-run) successful stop. -/
structure ShutdownResult where
  instance_id : String
  instance_type : String
  instance_name : Option String
  action : String
  status : String
  message : String
deriving DecidableEq, Repr

/-- `shutdown_instance`, with the stop API explicit: `stopApi id` is
`Except.ok ()` when `ec2.stop_instances` succeeds and `Except.error e`
when it raises.  The second component records whether a real stop
command was issued. -/
def shutdown_instance (dryRun : Bool) (stopApi : String → Except String Unit)
    (inst : Instance) : ShutdownResult × Bool :=
  if dryRun then
    ({ instance_id := inst.instanceId, instance_type := inst.instanceType,
       instance_name := none, action := "dry_run", status := "success",
       message := "Would be shut down (dry run mode)" }, false)
  else
    match stopApi inst.instanceId with
    | .ok _ =>
      ({ instance_id := inst.instanceId, instance_type := inst.instanceType,
         instance_name := some (pyTagGet inst.tags "Name" "Unnamed"),
         action := "shutdown", status := "success",
         message := "Shutdown initiated successfully" }, true)
    | .error e =>
      ({ instance_id := inst.instanceId, instance_type := inst.instanceType,
         instance_name := none, action := "shutdown", status := "error",
         message := "Failed to shutdown instance " ++ inst.instanceId ++ ": " ++ e },
       true)

/-- The `skipped_instances` list built by the handler loop. -/
def skippedInstances (instances : List Instance) :
    List (String × String × SkipReason) :=
  instances.filterMap (fun i =>
    (should_skip_instance i).map (fun r => (i.instanceId, i.instanceType, r)))

/-- The `shutdown_candidates` list built by the handler loop: instances
that are not skipped and whose idle check returns `True`.  `isIdle`
abstracts the per-instance telemetry evaluation (`is_instance_idle`). -/
def shutdownCandidates (instances : List Instance) (isIdle : Instance → Bool) :
    List Instance :=
  instances.filter (fun i => (should_skip_instance i).isNone && isIdle i)

/-- The `body` of the handler's 200 response (lines 86-97). -/
structure HandlerResponse where
  statusCode : Nat
  total_instances_evaluated : Nat
  instances_skipped : Nat
  instances_shutdown : Nat
  dry_run : Bool
  skipped_instances : List (String × String × SkipReason)
  shutdown_results : List ShutdownResult
deriving DecidableEq, Repr

/-- `lambda_handler`'s successful path, as a pure function of the
inventory and the stop API.  The monitoring-enable step only logs and
sleeps (its failures are swallowed inside
`enable_detailed_monitoring_if_needed`), so it has no effect on the
response and is not modelled. -/
def lambda_handler (dryRun : Bool) (stopApi : String → Except String Unit)
    (isIdle : Instance → Bool) (instances : List Instance) : HandlerResponse :=
  let skipped := skippedInstances instances
  let results :=
    (shutdownCandidates instances isIdle).map
      (fun c => (shutdown_instance dryRun stopApi c).1)
  { statusCode := 200
    total_instances_evaluated := instances.length
    instances_skipped := skipped.length
    instances_shutdown := results.length
    dry_run := dryRun
    skipped_instances := skipped
    shutdown_results := results }

/-- The excluded-family condition of `should_skip_instance`, as a
proposition. -/
def familyExcluded (inst : Instance) : Prop :=
  ∃ ex ∈ EXCLUDED_INSTANCE_TYPES, pyStartsWith (pyLower inst.instanceType) ex = true

instance (inst : Instance) : Decidable (familyExcluded inst) := by
  unfold familyExcluded; infer_instance

/-- Modelled from the spec: the claim's discontinuity budget, in which
each gap over 360 seconds contributes only its excess over 360 seconds.
This is NOT what the code computes (the code sums full gap durations);
it is stated only to compare the claim against the code. -/
def specExcessGapTotal (l : List Datapoint) : Int :=
  ((timeGaps l).map (fun d => d - 360)).sum

/-! Concrete sample sets used as witnesses and counterexamples. -/

/-- 32 samples at perfect 5-minute cadence, all fully idle. -/
def l32 : List Datapoint := (List.range 32).map (fun i => ⟨300 * i, 0⟩)

/-- 36 samples, perfect cadence except one single 700-second gap. -/
def gapList700 : List Datapoint :=
  (List.range 35).map (fun i => ⟨300 * i, 0⟩) ++ [⟨10900, 0⟩]

/-- 35 idle samples at timestamps 300, 600, ..., 10500. -/
def tail35 : List Datapoint := (List.range 35).map (fun i => ⟨300 * (i + 1), 0⟩)

/-- 37 samples with two sharing timestamp 0: the busy one (average 50)
listed first. -/
def listHiFirst : List Datapoint := ⟨0, 50⟩ :: ⟨0, 0⟩ :: tail35

/-- The same multiset of samples with the two timestamp-0 samples
swapped. -/
def listLoFirst : List Datapoint := ⟨0, 0⟩ :: ⟨0, 50⟩ :: tail35

/-! ## Classification characterisation -/

lemma ratio_eq_iff {c n : Nat} (hn : (n : ℚ) ≠ 0) :
    ((c : ℚ) / (n : ℚ) * 100 = 100) ↔ c = n := by
  constructor
  · intro h
    have h1 : (c : ℚ) / (n : ℚ) = 1 := by
      have := mul_right_cancel₀ (b := (100 : ℚ)) (by norm_num)
        (by simpa using h)
      simpa using this
    have := (div_eq_one_iff_eq hn).mp h1
    exact_mod_cast this
  · rintro rfl
    rw [div_self hn, one_mul]

lemma classify_spec (recent : List Datapoint) (h : recent ≠ []) :
    classifyDatapoints recent =
      if ∀ dp ∈ recent, dp.average ≤ CPU_THRESHOLD then .idle else .active := by
  have hn : ((recent.length : ℚ)) ≠ 0 := by
    simpa [List.length_eq_zero] using h
  unfold classifyDatapoints
  by_cases hall : ∀ dp ∈ recent, dp.average ≤ CPU_THRESHOLD
  · rw [if_pos hall]
    have hfl : (recent.filter (fun dp => dp.average ≤ CPU_THRESHOLD)).length
        = recent.length := by
      rw [List.filter_length_eq_length]
      intro a ha
      exact decide_eq_true (hall a ha)
    rw [hfl, if_pos ((ratio_eq_iff hn).mpr rfl)]
  · have hfl : (recent.filter (fun dp => dp.average ≤ CPU_THRESHOLD)).length
        ≠ recent.length := by
      intro hc
      exact hall (fun a ha => by
        have := (List.filter_length_eq_length.mp hc) a ha
        simpa using this)
    rw [if_neg hall, if_neg (fun hc => hfl ((ratio_eq_iff hn).mp hc))]

lemma gapCheckFails_eq (l : List Datapoint) :
    gapCheckFails l = decide (600 < (timeGaps l).sum) := by
  unfold gapCheckFails
  cases hg : timeGaps l with
  | nil => simp
  | cons a t => simp

lemma evaluateSamples_spec (l : List Datapoint) (h : l ≠ []) :
    evaluateSamples l =
      if l.length < min_required_datapoints then .insufficientCount
      else if 600 < (timeGaps (sortSamples l)).sum then .tooManyGaps
      else classifyDatapoints (recentOf l) := by
  unfold evaluateSamples
  rw [if_neg (by simpa [List.isEmpty_iff] using h), gapCheckFails_eq]
  by_cases hc : l.length < min_required_datapoints
  · rw [if_pos hc, if_pos hc]
  · rw [if_neg hc, if_neg hc]
    by_cases hg : 600 < (timeGaps (sortSamples l)).sum
    · rw [if_pos hg, if_pos (by simpa using hg)]
    · rw [if_neg hg, if_neg (by simpa using hg)]

lemma classify_cases (recent : List Datapoint) :
    classifyDatapoints recent = .idle ∨ classifyDatapoints recent = .active := by
  simp only [classifyDatapoints]
  split_ifs <;> simp

lemma sortSamples_length (l : List Datapoint) :
    (sortSamples l).length = l.length :=
  (List.perm_insertionSort tsLE l).length_eq

lemma recentOf_ne_nil (l : List Datapoint) (h : l ≠ []) : recentOf l ≠ [] := by
  have hlen := sortSamples_length l
  have hpos : 0 < l.length := List.length_pos.mpr h
  unfold recentOf
  by_cases hc : expected_datapoints ≤ (sortSamples l).length
  · rw [hlen] at hc
    rw [if_pos (by rw [hlen]; exact hc)]
    intro hnil
    have hl := congrArg List.length hnil
    rw [List.length_drop, hlen] at hl
    simp only [List.length_nil] at hl
    have he : expected_datapoints = 36 := rfl
    omega
  · rw [if_neg hc]
    intro hnil
    have hl := congrArg List.length hnil
    rw [hlen] at hl
    simp only [List.length_nil] at hl
    omega

/-- Two sorted datapoint lists that are permutations of each other and
whose timestamps are pairwise distinct are equal. -/
lemma sorted_perm_nodup_eq : ∀ {l₁ l₂ : List Datapoint}, l₁.Perm l₂ →
    l₁.Sorted tsLE → l₂.Sorted tsLE →
    (l₁.map Datapoint.timestamp).Nodup → l₁ = l₂ := by
  intro l₁
  induction l₁ with
  | nil => intro l₂ hp _ _ _; exact (hp.symm.eq_nil).symm
  | cons a t₁ ih =>
    intro l₂ hp hs₁ hs₂ hnd
    cases l₂ with
    | nil => exact absurd hp.eq_nil (by simp)
    | cons b t₂ =>
      have hab : a = b := by
        by_contra hne
        have ha2 : a ∈ b :: t₂ := hp.subset (List.mem_cons_self a t₁)
        have hb1 : b ∈ a :: t₁ := hp.symm.subset (List.mem_cons_self b t₂)
        have hat2 : a ∈ t₂ := by
          cases List.mem_cons.mp ha2 with
          | inl h => exact absurd h hne
          | inr h => exact h
        have hbt1 : b ∈ t₁ := by
          cases List.mem_cons.mp hb1 with
          | inl h => exact absurd h.symm hne
          | inr h => exact h
        have h1 : a.timestamp ≤ b.timestamp := List.rel_of_sorted_cons hs₁ b hbt1
        have h2 : b.timestamp ≤ a.timestamp := List.rel_of_sorted_cons hs₂ a hat2
        have hts : b.timestamp = a.timestamp := le_antisymm h2 h1
        have : a.timestamp ∈ t₁.map Datapoint.timestamp :=
          hts ▸ List.mem_map_of_mem Datapoint.timestamp hbt1
        exact (List.nodup_cons.mp hnd).1 this
      subst hab
      have ht : t₁ = t₂ :=
        ih hp.cons_inv hs₁.of_cons hs₂.of_cons (List.nodup_cons.mp hnd).2
      rw [ht]

/-- On sample lists with pairwise-distinct timestamps, the sort is a
function of the multiset alone. -/
lemma sortSamples_perm_eq {l₁ l₂ : List Datapoint} (hp : l₁.Perm l₂)
    (hnd : (l₁.map Datapoint.timestamp).Nodup) :
    sortSamples l₁ = sortSamples l₂ := by
  have hperm : (sortSamples l₁).Perm (sortSamples l₂) :=
    ((List.perm_insertionSort tsLE l₁).trans hp).trans
      (List.perm_insertionSort tsLE l₂).symm
  have hnd' : ((sortSamples l₁).map Datapoint.timestamp).Nodup := by
    have : ((sortSamples l₁).map Datapoint.timestamp).Perm
        (l₁.map Datapoint.timestamp) :=
      (List.perm_insertionSort tsLE l₁).map Datapoint.timestamp
    exact (this.nodup_iff).mpr hnd
  exact sorted_perm_nodup_eq hperm
    (List.sorted_insertionSort tsLE l₁) (List.sorted_insertionSort tsLE l₂) hnd'

/-! ## Claim theorems -/

/-- C2: Strict idle classification: for every non-empty trimmed sample
sequence, the verdict is `idle` iff every sample's average is at most
`CPU_THRESHOLD` (samples exactly at the threshold count as idle), and
`active` iff at least one sample exceeds the threshold. -/
theorem strict_idle_classification (recent : List Datapoint) (h : recent ≠ []) :
    (classifyDatapoints recent = .idle ↔
      ∀ dp ∈ recent, dp.average ≤ CPU_THRESHOLD)
    ∧ (classifyDatapoints recent = .active ↔
      ∃ dp ∈ recent, CPU_THRESHOLD < dp.average) := by
  by_cases hall : ∀ dp ∈ recent, dp.average ≤ CPU_THRESHOLD
  · rw [classify_spec recent h, if_pos hall]
    refine ⟨⟨fun _ => hall, fun _ => rfl⟩, ?_, ?_⟩
    · intro hcontra; exact absurd hcontra (by simp)
    · rintro ⟨dp, hdp, hgt⟩; exact absurd (hall dp hdp) (not_le.mpr hgt)
  · rw [classify_spec recent h, if_neg hall]
    push_neg at hall
    obtain ⟨dp, hdp, hgt⟩ := hall
    refine ⟨⟨?_, ?_⟩, ⟨fun _ => ⟨dp, hdp, hgt⟩, fun _ => rfl⟩⟩
    · intro hcontra; exact absurd hcontra (by simp)
    · intro hall2; exact absurd (hall2 dp hdp) (not_le.mpr hgt)

theorem strict_idle_classification_witness :
    classifyDatapoints [⟨0, 1⟩, ⟨300, 1⟩] = IdleVerdict.idle
    ∧ classifyDatapoints [⟨0, 1⟩, ⟨300, 2⟩] = IdleVerdict.active :=
  ⟨(strict_idle_classification _ (by decide)).1.mpr (by decide),
   (strict_idle_classification _ (by decide)).2.mpr (by decide)⟩

/-- C3: Launch-time floor: when the time since launch is below
`IDLE_DURATION_HOURS + 0.5` hours, the evaluation returns the
insufficient-data verdict `tooYoung` (which is not `idle`) and the
telemetry query is not issued. -/
theorem launch_time_floor (launch now : Int)
    (telemetry : Int → Int → List Datapoint)
    (h : now - launch < requiredRuntimeSeconds) :
    is_instance_idle (some launch) now telemetry = (.tooYoung, false)
    ∧ IdleVerdict.tooYoung ≠ IdleVerdict.idle := by
  refine ⟨?_, by simp⟩
  simp only [is_instance_idle]
  rw [if_pos h]

theorem launch_time_floor_witness :
    is_instance_idle (some 0) 3600 (fun _ _ => [⟨0, 0⟩])
      = (IdleVerdict.tooYoung, false) :=
  (launch_time_floor 0 3600 (fun _ _ => [⟨0, 0⟩]) (by decide)).1

/-- C7: An empty sample sequence yields the insufficient-data verdict
`noData` and never `idle`; the whole evaluation with a telemetry source
returning no samples is never `idle`; and trimming never makes a
non-empty sample list empty, so the classifier's division by the sample
count is never applied to an empty list. -/
theorem empty_samples_never_idle :
    evaluateSamples [] = IdleVerdict.noData
    ∧ (∀ launch now,
        (is_instance_idle launch now (fun _ _ => [])).1 ≠ IdleVerdict.idle)
    ∧ (∀ l : List Datapoint, l ≠ [] → recentOf l ≠ []) := by
  refine ⟨rfl, ?_, recentOf_ne_nil⟩
  intro launch now
  cases launch with
  | none => simp [is_instance_idle]
  | some lt =>
    simp only [is_instance_idle]
    by_cases h : now - lt < requiredRuntimeSeconds
    · rw [if_pos h]; simp
    · rw [if_neg h]; simp [evaluateSamples]

theorem empty_samples_never_idle_witness :
    (is_instance_idle (some 0) 100000 (fun _ _ => [])).1 ≠ IdleVerdict.idle
    ∧ recentOf [⟨0, 0⟩] ≠ [] :=
  ⟨empty_samples_never_idle.2.1 (some 0) 100000,
   empty_samples_never_idle.2.2 [⟨0, 0⟩] (by decide)⟩

/-- C1 (amended): each consecutive gap over 360 seconds is recorded at
its FULL duration, and (once the count check passes) the verdict is the
insufficient-data verdict `tooManyGaps` exactly when the sum of the
recorded full gap durations exceeds 600 seconds; in particular a single
700-second gap (full duration 700 > 600) is rejected. -/
theorem gap_check_full_durations (l : List Datapoint) (h : l ≠ [])
    (hc : min_required_datapoints ≤ l.length) :
    evaluateSamples l = .tooManyGaps ↔
      600 < (timeGaps (sortSamples l)).sum := by
  rw [evaluateSamples_spec l h, if_neg (Nat.not_lt.mpr hc)]
  by_cases hg : 600 < (timeGaps (sortSamples l)).sum
  · rw [if_pos hg]; exact ⟨fun _ => hg, fun _ => rfl⟩
  · rw [if_neg hg]
    constructor
    · intro hcl
      rcases classify_cases (recentOf l) with h1 | h1 <;> rw [h1] at hcl <;>
        simp at hcl
    · intro hgg; exact absurd hgg hg

theorem gap_check_full_durations_witness :
    evaluateSamples gapList700 = IdleVerdict.tooManyGaps :=
  (gap_check_full_durations gapList700 (by decide) (by decide)).mpr (by decide)

/-- C1 counterexample: the claim says only the excess over 360 seconds
counts and that a sample set whose only large gap is 700 seconds passes
the gap check; on `gapList700` the claim's excess budget is 340 ≤ 600,
yet the code rejects the set as `tooManyGaps`, because it sums full gap
durations (700 > 600). -/
theorem gap_tolerance_counterexample :
    specExcessGapTotal (sortSamples gapList700) ≤ 600
    ∧ min_required_datapoints ≤ gapList700.length
    ∧ evaluateSamples gapList700 = IdleVerdict.tooManyGaps := by
  decide

/-- C4 (amended): the count check fails exactly when the sample count is
below `int(expected_datapoints * 0.9)`; `int` truncates, so the bound is
32 (not 32.4) for `idle_duration = 3`, and a 32-sample sequence passes
the count check. -/
theorem sample_count_minimum (l : List Datapoint) (h : l ≠ []) :
    (evaluateSamples l = .insufficientCount ↔
      l.length < min_required_datapoints)
    ∧ min_required_datapoints = 32 := by
  refine ⟨?_, by decide⟩
  rw [evaluateSamples_spec l h]
  by_cases hc : l.length < min_required_datapoints
  · rw [if_pos hc]; exact ⟨fun _ => hc, fun _ => rfl⟩
  · rw [if_neg hc]
    constructor
    · intro hcl
      by_cases hg : 600 < (timeGaps (sortSamples l)).sum
      · rw [if_pos hg] at hcl; simp at hcl
      · rw [if_neg hg] at hcl
        rcases classify_cases (recentOf l) with h1 | h1 <;> rw [h1] at hcl <;>
          simp at hcl
    · intro hgg; exact absurd hgg hc

theorem sample_count_minimum_witness :
    evaluateSamples l32 ≠ IdleVerdict.insufficientCount ∧ l32.length = 32 :=
  ⟨(not_congr (sample_count_minimum l32 (by decide)).1).mpr (by decide),
   by decide⟩

/-- C4 counterexample: `l32` has 32 samples, strictly below the exact
90% bound 32.4 of the expected 36, so the claim (read with an exact 90%
minimum) says it must fail with insufficient-data; the code truncates
the bound to 32 and classifies the fully idle 32-sample set as `idle`. -/
theorem sample_count_counterexample :
    (l32.length : ℚ) < (expected_datapoints : ℚ) * (9 / 10)
    ∧ evaluateSamples l32 = IdleVerdict.idle := by
  constructor
  · have h32 : l32.length = 32 := by decide
    rw [h32]
    norm_num [expected_datapoints, IDLE_DURATION_HOURS]
  · rw [evaluateSamples_spec l32 (by decide), if_neg (by decide),
      if_neg (by decide),
      classify_spec (recentOf l32) (recentOf_ne_nil l32 (by decide)),
      if_pos (by decide)]

/-- C5: an instance whose type starts (case-insensitively) with an
excluded family letter is always skipped with the excluded-family
reason, whatever its tags — the family rule is checked before the
opt-out-tag rule, so the reported reason is the family exclusion even
when both rules apply. -/
theorem excluded_family_always_skips (inst : Instance)
    (h : familyExcluded inst) :
    should_skip_instance inst = some SkipReason.excludedType := by
  obtain ⟨ex, hmem, hpre⟩ := h
  have hsome : (EXCLUDED_INSTANCE_TYPES.find?
      (fun e => pyStartsWith (pyLower inst.instanceType) e)).isSome = true :=
    List.find?_isSome.mpr ⟨ex, hmem, hpre⟩
  unfold should_skip_instance
  split
  · rfl
  · rename_i hf
    rw [hf] at hsome
    simp at hsome

theorem excluded_family_always_skips_witness :
    should_skip_instance ⟨"i-0abc", "P3.2xlarge", [⟨"Shutdown", "no"⟩]⟩
      = some SkipReason.excludedType :=
  excluded_family_always_skips _ (by decide)

/-- C6: an instance that is not family-excluded is skipped with the
opt-out reason exactly when it carries a `Shutdown` tag whose value,
lower-cased, is `no` (tag keys assumed unique, as they are in EC2);
with no tags at all the instance is not skipped. -/
theorem optout_tag_skips (inst : Instance) (hfam : ¬ familyExcluded inst)
    (hnd : (inst.tags.map Tag.key).Nodup) :
    (should_skip_instance inst = some SkipReason.optOutTag ↔
      ∃ t ∈ inst.tags, t.key = "Shutdown" ∧ pyLower t.value = "no")
    ∧ (inst.tags = [] → should_skip_instance inst = none) := by
  have hnone : EXCLUDED_INSTANCE_TYPES.find?
      (fun e => pyStartsWith (pyLower inst.instanceType) e) = none := by
    rw [List.find?_eq_none]
    intro x hx hpx
    exact hfam ⟨x, hx, hpx⟩
  have hred : should_skip_instance inst =
      (if pyLower (pyTagGet inst.tags "Shutdown" "") = "no" then
        some SkipReason.optOutTag else none) := by
    unfold should_skip_instance
    rw [hnone]
  have hiff : pyLower (pyTagGet inst.tags "Shutdown" "") = "no" ↔
      ∃ t ∈ inst.tags, t.key = "Shutdown" ∧ pyLower t.value = "no" := by
    cases hF : (inst.tags.filter (fun t => t.key = "Shutdown")).getLast? with
    | none =>
      have hFnil : inst.tags.filter (fun t => t.key = "Shutdown") = [] := by
        cases hfe : inst.tags.filter (fun t => t.key = "Shutdown") with
        | nil => rfl
        | cons a t => rw [hfe] at hF; simp at hF
      have hval : pyTagGet inst.tags "Shutdown" "" = "" := by
        unfold pyTagGet
        rw [hF]
      rw [hval]
      constructor
      · intro hno; exact absurd hno (by decide)
      · rintro ⟨t, ht, hk, hv⟩
        have hmemF : t ∈ inst.tags.filter (fun t => t.key = "Shutdown") :=
          List.mem_filter.mpr ⟨ht, by simp [hk]⟩
        rw [hFnil] at hmemF
        cases hmemF
    | some t0 =>
      have hval : pyTagGet inst.tags "Shutdown" "" = t0.value := by
        unfold pyTagGet
        rw [hF]
      have ht0F : t0 ∈ inst.tags.filter (fun t => t.key = "Shutdown") := by
        obtain ⟨hne, ht0⟩ :=
          List.mem_getLast?_eq_getLast (Option.mem_def.mpr hF)
        rw [ht0]
        exact List.getLast_mem hne
      have ht0tags : t0 ∈ inst.tags := (List.mem_filter.mp ht0F).1
      have ht0key : t0.key = "Shutdown" := by
        have := (List.mem_filter.mp ht0F).2
        simpa using this
      rw [hval]
      constructor
      · intro hno; exact ⟨t0, ht0tags, ht0key, hno⟩
      · rintro ⟨t, ht, hk, hv⟩
        have heq : t = t0 :=
          List.inj_on_of_nodup_map hnd ht ht0tags (by rw [hk, ht0key])
        rw [← heq]
        exact hv
  constructor
  · rw [hred]
    by_cases hno : pyLower (pyTagGet inst.tags "Shutdown" "") = "no"
    · rw [if_pos hno]
      exact iff_of_true rfl (hiff.mp hno)
    · rw [if_neg hno]
      constructor
      · intro hcontra; exact absurd hcontra (by simp)
      · intro hex; exact absurd (hiff.mpr hex) hno
  · intro h0
    rw [hred, h0]
    decide

theorem optout_tag_skips_witness :
    should_skip_instance ⟨"i-1", "t3.micro", [⟨"Shutdown", "No"⟩]⟩
        = some SkipReason.optOutTag
    ∧ should_skip_instance ⟨"i-2", "t3.micro", []⟩ = none :=
  ⟨(optout_tag_skips _ (by decide) (by decide)).1.mpr
      ⟨⟨"Shutdown", "No"⟩, by decide, by decide, by decide⟩,
   (optout_tag_skips ⟨"i-2", "t3.micro", []⟩ (by decide) (by decide)).2 rfl⟩

/-- C8: dry-run frame condition: with the dry-run flag set,
`shutdown_instance` records a successful "would be shut down" outcome
and issues no stop command, every recorded outcome in the handler
response is such a dry-run success, and the response echoes that
dry-run was active. -/
theorem dry_run_frame (stopApi : String → Except String Unit)
    (isIdle : Instance → Bool) (instances : List Instance) (inst : Instance) :
    (shutdown_instance true stopApi inst).2 = false
    ∧ (shutdown_instance true stopApi inst).1.status = "success"
    ∧ (shutdown_instance true stopApi inst).1.action = "dry_run"
    ∧ (shutdown_instance true stopApi inst).1.message
        = "Would be shut down (dry run mode)"
    ∧ (lambda_handler true stopApi isIdle instances).dry_run = true
    ∧ (∀ r ∈ (lambda_handler true stopApi isIdle instances).shutdown_results,
        r.action = "dry_run" ∧ r.status = "success") := by
  refine ⟨rfl, rfl, rfl, rfl, rfl, ?_⟩
  intro r hr
  simp only [lambda_handler, List.mem_map] at hr
  obtain ⟨c, hc, hrc⟩ := hr
  rw [← hrc]
  exact ⟨rfl, rfl⟩

theorem dry_run_frame_witness :
    (shutdown_instance true (fun _ => Except.error "boom")
        ⟨"i-1", "t3.micro", []⟩).2 = false
    ∧ (lambda_handler true (fun _ => Except.error "boom") (fun _ => true)
        [⟨"i-1", "t3.micro", []⟩]).dry_run = true :=
  ⟨(dry_run_frame (fun _ => Except.error "boom") (fun _ => true)
      [⟨"i-1", "t3.micro", []⟩] ⟨"i-1", "t3.micro", []⟩).1,
   (dry_run_frame (fun _ => Except.error "boom") (fun _ => true)
      [⟨"i-1", "t3.micro", []⟩] ⟨"i-1", "t3.micro", []⟩).2.2.2.2.1⟩

/-- C9: per-instance stop-failure isolation: the run always returns a
200 response; its results list has exactly one entry per shutdown
candidate, each computed from that candidate alone; an instance whose
stop command fails gets an error outcome, one whose stop command
succeeds gets a success outcome; and the outcome of an instance depends
only on the stop API's behaviour on that instance's own id, so a
failure for one instance cannot alter the others' outcomes. -/
theorem stop_failure_isolation (instances : List Instance)
    (isIdle : Instance → Bool) (s s' : String → Except String Unit) :
    (lambda_handler false s isIdle instances).statusCode = 200
    ∧ (lambda_handler false s isIdle instances).shutdown_results
        = (shutdownCandidates instances isIdle).map
            (fun c => (shutdown_instance false s c).1)
    ∧ (∀ inst e, s inst.instanceId = Except.error e →
        (shutdown_instance false s inst).1.status = "error")
    ∧ (∀ inst, s inst.instanceId = Except.ok () →
        (shutdown_instance false s inst).1.status = "success")
    ∧ (∀ inst, s inst.instanceId = s' inst.instanceId →
        shutdown_instance false s inst = shutdown_instance false s' inst) := by
  refine ⟨rfl, rfl, ?_, ?_, ?_⟩
  · intro inst e he
    simp [shutdown_instance, he]
  · intro inst he
    simp [shutdown_instance, he]
  · intro inst he
    simp [shutdown_instance, he]

theorem stop_failure_isolation_witness :
    (lambda_handler false
        (fun id => if id = "i-2" then Except.error "boom" else Except.ok ())
        (fun _ => true)
        [⟨"i-1", "t3.micro", []⟩, ⟨"i-2", "m5.large", []⟩]).statusCode = 200
    ∧ (shutdown_instance false
        (fun id => if id = "i-2" then Except.error "boom" else Except.ok ())
        ⟨"i-2", "m5.large", []⟩).1.status = "error"
    ∧ (shutdown_instance false
        (fun id => if id = "i-2" then Except.error "boom" else Except.ok ())
        ⟨"i-1", "t3.micro", []⟩).1.status = "success" :=
  ⟨(stop_failure_isolation [⟨"i-1", "t3.micro", []⟩, ⟨"i-2", "m5.large", []⟩]
      (fun _ => true)
      (fun id => if id = "i-2" then Except.error "boom" else Except.ok ())
      (fun id => if id = "i-2" then Except.error "boom" else Except.ok ())).1,
   (stop_failure_isolation [⟨"i-1", "t3.micro", []⟩, ⟨"i-2", "m5.large", []⟩]
      (fun _ => true)
      (fun id => if id = "i-2" then Except.error "boom" else Except.ok ())
      (fun id => if id = "i-2" then Except.error "boom" else Except.ok ())).2.2.1
      ⟨"i-2", "m5.large", []⟩ "boom" rfl,
   (stop_failure_isolation [⟨"i-1", "t3.micro", []⟩, ⟨"i-2", "m5.large", []⟩]
      (fun _ => true)
      (fun id => if id = "i-2" then Except.error "boom" else Except.ok ())
      (fun id => if id = "i-2" then Except.error "boom" else Except.ok ())).2.2.2.1
      ⟨"i-1", "t3.micro", []⟩ rfl⟩

/-- C10 (amended): the verdict is invariant under any permutation of
the order in which telemetry returns the samples PROVIDED the sample
timestamps are pairwise distinct; with duplicated timestamps the stable
sort can place different samples at the trim boundary (see the
counterexample). -/
theorem order_insensitive_on_distinct_timestamps (l₁ l₂ : List Datapoint)
    (hp : l₁.Perm l₂) (hnd : (l₁.map Datapoint.timestamp).Nodup) :
    evaluateSamples l₁ = evaluateSamples l₂ := by
  have hsort := sortSamples_perm_eq hp hnd
  have hlen : l₁.length = l₂.length := hp.length_eq
  have hemp : l₁.isEmpty = l₂.isEmpty := by
    cases l₁ with
    | nil => rw [hp.nil_eq]
    | cons a t =>
      cases l₂ with
      | nil => exact absurd hp.eq_nil (by simp)
      | cons b t' => rfl
  unfold evaluateSamples recentOf
  rw [hsort, hlen, hemp]

theorem order_insensitive_on_distinct_timestamps_witness :
    evaluateSamples [⟨300, 2⟩, ⟨0, 1⟩] = evaluateSamples [⟨0, 1⟩, ⟨300, 2⟩] :=
  order_insensitive_on_distinct_timestamps _ _
    (List.Perm.swap _ _ _) (by decide)

/-- C10 counterexample: two orderings of the same multiset of 37
samples, two of which share timestamp 0 (one busy, one idle).  The
stable sort keeps their input order, the trim to the most recent 36
samples drops whichever comes first, and the verdicts differ: `idle`
when the busy sample was listed first, `active` when it was listed
second. -/
theorem order_sensitivity_counterexample :
    listHiFirst.Perm listLoFirst
    ∧ evaluateSamples listHiFirst = IdleVerdict.idle
    ∧ evaluateSamples listLoFirst = IdleVerdict.active := by
  refine ⟨List.Perm.swap _ _ _, ?_, ?_⟩
  · rw [evaluateSamples_spec _ (by decide), if_neg (by decide),
      if_neg (by decide),
      classify_spec _ (recentOf_ne_nil _ (by decide)), if_pos (by decide)]
  · rw [evaluateSamples_spec _ (by decide), if_neg (by decide),
      if_neg (by decide),
      classify_spec _ (recentOf_ne_nil _ (by decide)), if_neg (by decide)]

end Ec2Shutdown
